import Mathlib

/-!
A shallow embedding of the API-client core of `asana-cli` (`src/api/client.rs`,
`src/api/auth.rs`, `src/api/pagination.rs`, `src/api/error.rs`), together with
theorems settling the behavioural claims about retry, backoff, pagination,
response parsing, caching keys, offline mode and credential redaction.

Machine integers are modelled as `Nat` with explicit bounds where overflow
matters; `Duration` is modelled as a count of nanoseconds (`secs : u64`,
`nanos < 10^9` in Rust, hence a valid duration has `nanos / 10^9 < 2^64`).
External-crate functions (serde's JSON parser, the `sha2` digest) are passed
as explicit function parameters, since only the repository's own logic around
them is under verification.
-/

namespace AsanaCli

/-- JSON values, mirroring `serde_json::Value`. Objects are association lists
of string keys (serde preserves a key-to-value mapping; only key membership
and lookup are used by the code under verification). -/
inductive Json where
  | null
  | bool (b : Bool)
  | num (n : Int)
  | str (s : String)
  | arr (xs : List Json)
  | obj (fields : List (String × Json))

/-- Lookup of a key in a JSON value, mirroring `Value::get(key)`: a lookup on
an object returns the value at the first matching key, anything else returns
`None`. -/
def Json.get (v : Json) (key : String) : Option Json :=
  match v with
  | .obj fields => (fields.find? (fun f => f.1 == key)).map (·.2)
  | _ => none

/-- Key membership in a JSON object's field list (`Map::contains_key`). -/
def jsonHasKey (fields : List (String × Json)) (key : String) : Bool :=
  fields.any (fun f => f.1 == key)

/-- `Value::as_array`. -/
def Json.asArr : Json → Option (List Json)
  | .arr xs => some xs
  | _ => none

/-- `Value::as_str`. -/
def Json.asStr : Json → Option String
  | .str s => some s
  | _ => none

/-- The error enumeration of `src/api/error.rs` (`ApiError`). `reqwest` and
`serde_json` error payloads are modelled by their display strings; the
`Duration` in `RateLimited` is a nanosecond count. -/
inductive ApiErr where
  | network (msg : String)
  | deserialize (msg : String)
  | http (status : Nat) (message : String) (details : Option Json)
  | authentication (body : String)
  | rateLimited (retryAfter : Nat) (body : String)
  | cache (msg : String)
  | offline (resource : String)
  | unclonableRequest
  | other (msg : String)

/-! ## Durations and backoff (`ApiClient::backoff_delay`) -/

/-- Nanoseconds per second, the base of Rust's `Duration` representation. -/
def NANOS_PER_SEC : Nat := 1000000000

/-- A Rust `Duration` is representable iff its seconds component fits `u64`. -/
def durValid (d : Nat) : Prop := d / NANOS_PER_SEC < 2 ^ 64

/-- `Duration::checked_mul(rhs: u32)`: the product is returned unless the
resulting seconds component overflows `u64`. -/
def durCheckedMul (d : Nat) (m : Nat) : Option Nat :=
  if (d * m) / NANOS_PER_SEC < 2 ^ 64 then some (d * m) else none

/-- `u32::try_from(attempt).unwrap_or(u32::MAX)`: a `usize` clamped into
`u32` range by substituting `u32::MAX` on failure. -/
def shiftAmount (attempt : Nat) : Nat :=
  if attempt < 2 ^ 32 then attempt else 2 ^ 32 - 1

/-- `1u32.checked_shl(n)`: `None` exactly when the shift distance is at least
the bit width 32; otherwise the shifted value (which always fits). -/
def checkedShl1 (n : Nat) : Option Nat :=
  if n < 32 then some (2 ^ n) else none

/-- `ApiClient::backoff_delay` (client.rs:810-818): multiplier
`1 << attempt` with out-of-range shifts collapsing to `1`, then
`retry_base_delay.checked_mul(multiplier).unwrap_or(retry_base_delay)`. -/
def backoff_delay (retry_base_delay : Nat) (attempt : Nat) : Nat :=
  let multiplier := (checkedShl1 (shiftAmount attempt)).getD 1
  (durCheckedMul retry_base_delay multiplier).getD retry_base_delay

/-! ## The request executor (`ApiClient::execute`, client.rs:576-691) -/

/-- An HTTP response as seen by the retry loop: status code, the parsed
`Retry-After` header (nanoseconds, `None` when absent or unparseable —
`ApiClient::parse_retry_after`), and the body text. -/
structure HttpResponse where
  status : Nat
  retryAfter : Option Nat
  body : String

/-- Outcome of one `request.send().await`: a transport error (with its
timeout/connect classification, `reqwest::Error::is_timeout`/`is_connect`)
or a response. -/
inductive SendResult where
  | fail (isTimeout isConnect : Bool) (msg : String)
  | resp (r : HttpResponse)

/-- Result of `ApiClient::execute` together with the number of HTTP attempts
(`request.send()` invocations) that were performed. -/
structure ExecOut where
  result : Except ApiErr String
  attempts : Nat

/-- `StatusCode::is_success` (2xx). -/
def isSuccessStatus (s : Nat) : Bool := 200 ≤ s && s < 300

/-- `StatusCode::is_server_error` (5xx). -/
def isServerErrorStatus (s : Nat) : Bool := 500 ≤ s && s < 600

/-- `StatusCode::canonical_reason`, modelled from the `http` crate for the
status codes this client distinguishes. -/
def canonicalReason (s : Nat) : Option String :=
  if s = 400 then some "Bad Request"
  else if s = 401 then some "Unauthorized"
  else if s = 403 then some "Forbidden"
  else if s = 404 then some "Not Found"
  else if s = 429 then some "Too Many Requests"
  else if s = 500 then some "Internal Server Error"
  else if s = 502 then some "Bad Gateway"
  else if s = 503 then some "Service Unavailable"
  else if s = 504 then some "Gateway Timeout"
  else none

/-- The retry loop of `ApiClient::execute` (client.rs:602-690). `send n` is
the outcome of the HTTP attempt with attempt counter `n`; `decode` is serde's
JSON parser (used for the structured `details` of a terminal HTTP error).
Sleeps and the rate-limit tracker update are side effects with no bearing on
the returned value and are not modelled. -/
def executeLoop (decode : String → Except String Json) (baseDelay maxRetries : Nat)
    (send : Nat → SendResult) (attempt : Nat) : ExecOut :=
  match send attempt with
  | .fail isTimeout isConnect msg =>
    if h : (isTimeout = true ∨ isConnect = true) ∧ attempt < maxRetries then
      let rest := executeLoop decode baseDelay maxRetries send (attempt + 1)
      ⟨rest.result, rest.attempts + 1⟩
    else
      ⟨.error (.network msg), 1⟩
  | .resp r =>
    if isSuccessStatus r.status then
      ⟨.ok r.body, 1⟩
    else if r.status = 429 then
      if h : attempt < maxRetries then
        let rest := executeLoop decode baseDelay maxRetries send (attempt + 1)
        ⟨rest.result, rest.attempts + 1⟩
      else
        ⟨.error (.rateLimited ((r.retryAfter).getD (backoff_delay baseDelay attempt)) r.body), 1⟩
    else if r.status = 401 ∨ r.status = 403 then
      ⟨.error (.authentication r.body), 1⟩
    else if h : isServerErrorStatus r.status ∧ attempt < maxRetries then
      let rest := executeLoop decode baseDelay maxRetries send (attempt + 1)
      ⟨rest.result, rest.attempts + 1⟩
    else
      ⟨.error (.http r.status
          (if r.body = "" then (canonicalReason r.status).getD "unknown error" else r.body)
          ((decode r.body).toOption)), 1⟩
termination_by maxRetries - attempt
decreasing_by all_goals omega

/-- `ApiClient::execute` (client.rs:576-601): for GET requests, the cache is
consulted first (`cacheHit` is the result of `get_from_cache`), then the
offline gate applies; every request then enters the retry loop. -/
def executeModel (isGet offlineFlag : Bool) (cacheHit : Option String)
    (decode : String → Except String Json) (baseDelay maxRetries : Nat)
    (send : Nat → SendResult) (path : String) : ExecOut :=
  if isGet then
    match cacheHit with
    | some bytes => ⟨.ok bytes, 0⟩
    | none =>
      if offlineFlag then ⟨.error (.offline path), 0⟩
      else executeLoop decode baseDelay maxRetries send 0
  else
    executeLoop decode baseDelay maxRetries send 0

/-! ## Response parsing (`ApiClient::parse_response`, `validate_response_schema`) -/

/-- `validate_response_schema` (client.rs:889-900): a JSON object must carry
a `data` or an `errors` key; every non-object value passes. -/
def validate_response_schema (value : Json) : Except ApiErr Unit :=
  match value with
  | .obj fields =>
    if jsonHasKey fields "data" || jsonHasKey fields "errors" then .ok ()
    else .error (.other "response missing required `data` or `errors` field")
  | _ => .ok ()

/-- `ApiClient::parse_response` (client.rs:563-573), instantiated at the
target type `Value` (so the final `from_value` step is the identity):
empty-body check, serde parse (`decode`), then the envelope schema check. -/
def parse_response (decode : String → Except String Json) (path : String)
    (bytes : String) : Except ApiErr Json :=
  if bytes = "" then .error (.other ("empty response body for " ++ path))
  else
    match decode bytes with
    | .error e => .error (.deserialize e)
    | .ok value =>
      match validate_response_schema value with
      | .error e => .error e
      | .ok _ => .ok value

/-- `ApiClient::get_json_with_pairs` (client.rs:534-544): execute a GET then
parse the returned bytes. -/
def get_json_with_pairs (offlineFlag : Bool) (cacheHit : Option String)
    (decode : String → Except String Json) (baseDelay maxRetries : Nat)
    (send : Nat → SendResult) (path : String) : Except ApiErr Json :=
  match (executeModel true offlineFlag cacheHit decode baseDelay maxRetries send path).result with
  | .error e => .error e
  | .ok bytes => parse_response decode path bytes

/-- `ApiClient::post_void` (client.rs:391-399): serialize the body
(`bodySer` is serde's `to_value` outcome), execute, discard the response
bytes. -/
def post_void (offlineFlag : Bool) (bodySer : Except String Json)
    (decode : String → Except String Json) (baseDelay maxRetries : Nat)
    (send : Nat → SendResult) (path : String) : Except ApiErr Unit :=
  match bodySer with
  | .error e => .error (.deserialize e)
  | .ok _ =>
    match (executeModel false offlineFlag none decode baseDelay maxRetries send path).result with
    | .ok _ => .ok ()
    | .error e => .error e

/-- `ApiClient::delete` (client.rs:440-449): execute a DELETE, discard the
response bytes. -/
def delete (offlineFlag : Bool)
    (decode : String → Except String Json) (baseDelay maxRetries : Nat)
    (send : Nat → SendResult) (path : String) : Except ApiErr Unit :=
  match (executeModel false offlineFlag none decode baseDelay maxRetries send path).result with
  | .ok _ => .ok ()
  | .error e => .error e

/-! ## Offset-expiry detection (`is_offset_expired`, client.rs:868-887) -/

/-- `char::to_ascii_lowercase`. -/
def lowerChar (c : Char) : Char :=
  if 'A' ≤ c ∧ c ≤ 'Z' then Char.ofNat (c.toNat + 32) else c

/-- `needle` occurs at the start of `hay`. -/
def leadsWith : List Char → List Char → Bool
  | [], _ => true
  | _ :: _, [] => false
  | a :: as, b :: bs => a == b && leadsWith as bs

/-- Substring occurrence (`str::contains` with a string pattern). -/
def hasSub (needle : List Char) : List Char → Bool
  | [] => needle.isEmpty
  | c :: rest => leadsWith needle (c :: rest) || hasSub needle rest

/-- `str::contains` on whole strings. -/
def strContains (hay needle : String) : Bool := hasSub needle.toList hay.toList

/-- `str::to_ascii_lowercase`. -/
def toLowerAscii (s : String) : String := ⟨s.toList.map lowerChar⟩

/-- The `matches` closure of `is_offset_expired`: the lowered text contains
"offset" together with "expired" or "invalid". -/
def offsetMsgMatches (text : String) : Bool :=
  let lowered := toLowerAscii text
  strContains lowered "offset" && (strContains lowered "expired" || strContains lowered "invalid")

/-- `is_offset_expired` (client.rs:868-887): matched against any entry of the
structured `errors` list of the details payload, then against the top-level
message. -/
def is_offset_expired (details : Option Json) (message : String) : Bool :=
  (match details with
   | some payload =>
     match (payload.get "errors").bind Json.asArr with
     | some errors =>
       errors.any (fun e =>
         match (e.get "message").bind Json.asStr with
         | some m => offsetMsgMatches m
         | none => false)
     | none => false
   | none => false)
  || offsetMsgMatches message

/-! ## Pagination (`ApiClient::paginate_with_limit`, client.rs:464-532) -/

/-- `PaginationInfo` (pagination.rs:6-14). -/
structure PaginationInfo where
  offset : Option String
  path : Option String
  uri : Option String

/-- `ListResponse<T>` (pagination.rs:25-32). -/
structure ListResponse (T : Type) where
  data : List T
  next_page : Option PaginationInfo

/-- One item of the pagination stream: a yielded page or a yielded error. -/
inductive StreamItem (T : Type) where
  | page (items : List T)
  | err (e : ApiErr)

/-- The `emitted >= max` check at the top of each loop iteration. -/
def stopBeforeFetch (max_items : Option Nat) (emitted : Nat) : Bool :=
  match max_items with
  | some m => decide (m ≤ emitted)
  | none => false

/-- The guard of the pagination error arm: an `ApiError::Http` with status
`400 Bad Request` whose payload matches `is_offset_expired`. -/
def offsetExpired400 (e : ApiErr) : Bool :=
  match e with
  | .http status message details => status == 400 && is_offset_expired details message
  | _ => false

/-- The loop body of `ApiClient::paginate_with_limit` (client.rs:476-531).
`fetches` lists the outcomes of the successive page GETs
(`get_json_with_pairs` results); the function returns the stream of yielded
items plus the number of GETs issued. An exhausted `fetches` list (a fetch
whose outcome the scenario does not specify) ends the trace. -/
def paginate_with_limit {T : Type} (max_items : Option Nat) :
    Nat → List (Except ApiErr (ListResponse T)) → List (StreamItem T) × Nat
  | _, [] => ([], 0)
  | emitted, f :: rest =>
    if stopBeforeFetch max_items emitted then ([], 0)
    else
      match f with
      | .error e => if offsetExpired400 e then ([], 1) else ([.err e], 1)
      | .ok response =>
        let next_offset_candidate := response.next_page.bind (·.offset)
        let items :=
          match max_items with
          | some m =>
            if m < emitted + response.data.length then response.data.take (m - emitted)
            else response.data
          | none => response.data
        let emitted' := emitted + items.length
        let continue_after_page := next_offset_candidate.isSome &&
          (match max_items with
           | none => true
           | some m => decide (emitted' < m))
        if continue_after_page then
          let restOut := paginate_with_limit max_items emitted' rest
          (.page items :: restOut.1, restOut.2 + 1)
        else
          ([.page items], 1)

/-! ## Credential holder (`AuthToken`, auth.rs:7-34) -/

/-- `AuthToken` wraps the secret token string (`SecretString`). -/
structure AuthToken where
  secret : String

/-- `AuthToken::new`. -/
def AuthToken.new (s : String) : AuthToken := ⟨s⟩

/-- `AuthToken::expose` (via `ExposeSecret::expose_secret`). -/
def AuthToken.expose (t : AuthToken) : String := t.secret

/-- `impl fmt::Display for AuthToken` (auth.rs:30-34): a constant marker. -/
def AuthToken.display (_ : AuthToken) : String := "<redacted token>"

/-- The derived `Debug` for `AuthToken`, whose inner rendering is modelled
from the `secrecy` crate: `SecretBox::fmt` writes a constant redaction
marker, never the secret. -/
def AuthToken.debugRender (_ : AuthToken) : String :=
  "AuthToken(SecretBox<str>([REDACTED]))"

/-! ## Cache key derivation (`ApiClient::build_cache_key`, client.rs:699-713) -/

/-- The `Ord` order of Rust `(String, String)` tuples: lexicographic on the
first component, then the second. -/
def pairLe (a b : String × String) : Prop :=
  a.1 < b.1 ∨ (a.1 = b.1 ∧ a.2 ≤ b.2)

instance : DecidableRel pairLe := fun a b => by
  unfold pairLe
  infer_instance

/-- `sorted.sort()` on the query-pair vector: sorting into the unique
`pairLe`-sorted arrangement. -/
def sortPairs (l : List (String × String)) : List (String × String) :=
  List.insertionSort pairLe l

/-- Lowercase hexadecimal digit. -/
def hexDigit (n : Nat) : Char :=
  if n < 10 then Char.ofNat (48 + n) else Char.ofNat (87 + n)

/-- serde_json's string escaping for one character. -/
def escapeChar (c : Char) : List Char :=
  if c = '"' then ['\\', '"']
  else if c = '\\' then ['\\', '\\']
  else if c = Char.ofNat 8 then ['\\', 'b']
  else if c = Char.ofNat 9 then ['\\', 't']
  else if c = Char.ofNat 10 then ['\\', 'n']
  else if c = Char.ofNat 12 then ['\\', 'f']
  else if c = Char.ofNat 13 then ['\\', 'r']
  else if c.toNat < 32 then ['\\', 'u', '0', '0', hexDigit (c.toNat / 16), hexDigit (c.toNat % 16)]
  else [c]

/-- serde_json's rendering of a JSON string literal. -/
def quoteJson (s : String) : String :=
  "\"" ++ (⟨s.toList.foldr (fun c acc => escapeChar c ++ acc) []⟩ : String) ++ "\""

/-- `serde_json::to_string` of one `(String, String)` tuple: a two-element
array. -/
def serializePair (p : String × String) : String :=
  "[" ++ quoteJson p.1 ++ "," ++ quoteJson p.2 ++ "]"

/-- `serde_json::to_string` of the sorted `Vec<(String, String)>`. -/
def serializePairList (l : List (String × String)) : String :=
  "[" ++ String.intercalate "," (l.map serializePair) ++ "]"

/-- `ApiClient::build_cache_key` (client.rs:699-713): the digest (`h` is the
`sha2` crate's SHA-256, hex-rendered) of method, path and the
JSON-serialized, sorted query pairs, joined by `::` separators. -/
def build_cache_key (h : String → String) (method path : String)
    (query_pairs : List (String × String)) : String :=
  h (method ++ "::" ++ path ++ "::" ++ serializePairList (sortPairs query_pairs))

/-! ## The offline flag across clones (client.rs:242, 246-257, 306-315) -/

/-- A store of atomic booleans; a reference is an index into the store. -/
structure AtomStore where
  cells : List Bool

/-- `AtomicBool::new`: allocate a fresh cell. -/
def newAtom (s : AtomStore) (b : Bool) : AtomStore × Nat :=
  (⟨s.cells ++ [b]⟩, s.cells.length)

/-- `AtomicBool::load`. -/
def loadAtom (s : AtomStore) (ref : Nat) : Bool := s.cells.getD ref false

/-- `AtomicBool::store`. -/
def storeAtom (s : AtomStore) (ref : Nat) (b : Bool) : AtomStore := ⟨s.cells.set ref b⟩

/-- The `offline: AtomicBool` field of one `ApiClient` handle. -/
structure ClientOffline where
  offlineRef : Nat

/-- The handle's cell exists in the store. -/
def ClientOffline.wf (s : AtomStore) (c : ClientOffline) : Prop :=
  c.offlineRef < s.cells.length

/-- `impl Clone for ApiClient` (client.rs:246-257): the clone receives a
freshly constructed `AtomicBool` seeded with the source's current value
(`AtomicBool::new(self.offline.load(Ordering::Relaxed))`). -/
def cloneClient (s : AtomStore) (c : ClientOffline) : AtomStore × ClientOffline :=
  let cur := loadAtom s c.offlineRef
  let alloc := newAtom s cur
  (alloc.1, ⟨alloc.2⟩)

/-- `ApiClient::set_offline` (client.rs:306-309). -/
def set_offline (s : AtomStore) (c : ClientOffline) (b : Bool) : AtomStore :=
  storeAtom s c.offlineRef b

/-- `ApiClient::is_offline` (client.rs:312-315). -/
def is_offline (s : AtomStore) (c : ClientOffline) : Bool :=
  loadAtom s c.offlineRef

/-! ## Theorems -/

/-- The multiplier computed by `backoff_delay` collapses to `2 ^ attempt`
below the shift width and to `1` from 32 on (including attempts beyond
`u32` range). -/
theorem backoff_multiplier_eq (n : Nat) :
    (checkedShl1 (shiftAmount n)).getD 1 = if n < 32 then 2 ^ n else 1 := by
  unfold checkedShl1 shiftAmount
  by_cases hbig : n < 2 ^ 32
  · rw [if_pos hbig]
    by_cases h32 : n < 32
    · rw [if_pos h32, if_pos h32]
      rfl
    · rw [if_neg h32, if_neg h32]
      rfl
  · rw [if_neg hbig]
    have h32 : ¬ n < 32 := by
      intro h
      exact hbig (lt_of_lt_of_le h (by norm_num))
    have h1 : ¬ (2 ^ 32 - 1 < 32) := by norm_num
    rw [if_neg h1, if_neg h32]
    rfl

/-- C2: for every attempt `n` and valid base delay `b`, the backoff delay is
`b * 2 ^ n` whenever neither the shift (`n < 32`) nor the duration
multiplication overflows; on a shift out of range (`n ≥ 32`) or a duration
overflow it is `b` unchanged; and it is never zero when `b` is positive. -/
theorem backoff_delay_spec (b n : Nat) (hb : durValid b) :
    (n < 32 → (b * 2 ^ n) / NANOS_PER_SEC < 2 ^ 64 → backoff_delay b n = b * 2 ^ n) ∧
    (32 ≤ n → backoff_delay b n = b) ∧
    (2 ^ 64 ≤ (b * 2 ^ n) / NANOS_PER_SEC → backoff_delay b n = b) ∧
    (0 < b → 0 < backoff_delay b n) := by
  have key : backoff_delay b n = (durCheckedMul b (if n < 32 then 2 ^ n else 1)).getD b := by
    simp only [backoff_delay]
    rw [backoff_multiplier_eq]
  unfold durValid at hb
  refine ⟨?_, ?_, ?_, ?_⟩
  · intro h32 hov
    rw [key, if_pos h32]
    unfold durCheckedMul
    rw [if_pos hov]
    rfl
  · intro h32
    rw [key, if_neg (not_lt.mpr h32)]
    unfold durCheckedMul
    rw [Nat.mul_one, if_pos hb]
    rfl
  · intro hov
    by_cases h32 : n < 32
    · rw [key, if_pos h32]
      unfold durCheckedMul
      rw [if_neg (not_lt.mpr hov)]
      rfl
    · rw [key, if_neg h32]
      unfold durCheckedMul
      rw [Nat.mul_one, if_pos hb]
      rfl
  · intro hpos
    rw [key]
    unfold durCheckedMul
    split_ifs with h32 hov hov'
    · simpa using Nat.mul_pos hpos (Nat.two_pow_pos n)
    · simpa using hpos
    · simpa using Nat.mul_pos hpos Nat.one_pos
    · simpa using hpos

/-- Witness for `backoff_delay_spec`: at the default base delay of 500 ms
(in nanoseconds) and attempt 3, the hypotheses hold and the delay is
`500ms * 8`. -/
theorem backoff_delay_spec_witness :
    durValid 500000000 ∧ backoff_delay 500000000 3 = 500000000 * 2 ^ 3 :=
  ⟨by unfold durValid; decide,
   (backoff_delay_spec 500000000 3 (by unfold durValid; decide)).1 (by decide) (by decide)⟩

/-- Unfolding of one iteration of the retry loop when the attempt produced a
response. -/
theorem executeLoop_resp (decode : String → Except String Json) (baseDelay maxRetries : Nat)
    (send : Nat → SendResult) (attempt : Nat) (r : HttpResponse)
    (hsend : send attempt = .resp r) :
    executeLoop decode baseDelay maxRetries send attempt =
      if isSuccessStatus r.status then ⟨.ok r.body, 1⟩
      else if r.status = 429 then
        if attempt < maxRetries then
          ⟨(executeLoop decode baseDelay maxRetries send (attempt + 1)).result,
           (executeLoop decode baseDelay maxRetries send (attempt + 1)).attempts + 1⟩
        else ⟨.error (.rateLimited ((r.retryAfter).getD (backoff_delay baseDelay attempt)) r.body), 1⟩
      else if r.status = 401 ∨ r.status = 403 then ⟨.error (.authentication r.body), 1⟩
      else if isServerErrorStatus r.status ∧ attempt < maxRetries then
        ⟨(executeLoop decode baseDelay maxRetries send (attempt + 1)).result,
         (executeLoop decode baseDelay maxRetries send (attempt + 1)).attempts + 1⟩
      else ⟨.error (.http r.status
          (if r.body = "" then (canonicalReason r.status).getD "unknown error" else r.body)
          ((decode r.body).toOption)), 1⟩ := by
  rw [executeLoop, hsend]
  dsimp only
  simp only [dite_eq_ite]

/-- A retryable server-error response repeated at every attempt drives the
loop from `attempt` to exhaustion in `maxRetries - attempt + 1` attempts,
ending in the structured HTTP error. -/
theorem executeLoop_all_server_error (decode : String → Except String Json)
    (baseDelay maxRetries : Nat) (send : Nat → SendResult) (r : HttpResponse)
    (hst : isServerErrorStatus r.status = true)
    (hns : isSuccessStatus r.status = false)
    (h429 : r.status ≠ 429) (h401 : r.status ≠ 401) (h403 : r.status ≠ 403)
    (hsend : ∀ n, send n = .resp r) :
    ∀ k attempt, attempt + k = maxRetries →
      executeLoop decode baseDelay maxRetries send attempt =
        ⟨.error (.http r.status
            (if r.body = "" then (canonicalReason r.status).getD "unknown error" else r.body)
            ((decode r.body).toOption)), k + 1⟩ := by
  intro k
  induction k with
  | zero =>
    intro attempt h
    have hlt : ¬ attempt < maxRetries := by omega
    have hnsP : ¬ (isSuccessStatus r.status = true) := by simp [hns]
    have hAuth : ¬ (r.status = 401 ∨ r.status = 403) := by tauto
    have hSrvNeg : ¬ (isServerErrorStatus r.status = true ∧ attempt < maxRetries) :=
      fun hc => hlt hc.2
    rw [executeLoop_resp decode baseDelay maxRetries send attempt r (hsend attempt)]
    rw [if_neg hnsP, if_neg h429, if_neg hAuth, if_neg hSrvNeg]
  | succ k ih =>
    intro attempt h
    have hlt : attempt < maxRetries := by omega
    have hnsP : ¬ (isSuccessStatus r.status = true) := by simp [hns]
    have hAuth : ¬ (r.status = 401 ∨ r.status = 403) := by tauto
    have hSrv : isServerErrorStatus r.status = true ∧ attempt < maxRetries := ⟨hst, hlt⟩
    rw [executeLoop_resp decode baseDelay maxRetries send attempt r (hsend attempt)]
    rw [if_neg hnsP, if_neg h429, if_neg hAuth, if_pos hSrv]
    rw [ih (attempt + 1) (by omega)]

/-- C1: with `max_retries = R`, a request whose every attempt returns the
same retryable server error (any 5xx status, e.g. 503) performs exactly
`R + 1` sequential HTTP attempts and then returns the terminal structured
HTTP error carrying that status code; no further attempts occur. -/
theorem retry_exhaustion_5xx (decode : String → Except String Json)
    (baseDelay R : Nat) (send : Nat → SendResult) (r : HttpResponse)
    (hstatus : isServerErrorStatus r.status = true) (hsend : ∀ n, send n = .resp r) :
    executeLoop decode baseDelay R send 0 =
      ⟨.error (.http r.status
          (if r.body = "" then (canonicalReason r.status).getD "unknown error" else r.body)
          ((decode r.body).toOption)), R + 1⟩ := by
  have hb : 500 ≤ r.status ∧ r.status < 600 := by
    simpa [isServerErrorStatus] using hstatus
  have hns : isSuccessStatus r.status = false := by
    simp [isSuccessStatus]
    omega
  exact executeLoop_all_server_error decode baseDelay R send r hstatus hns
    (by omega) (by omega) (by omega) hsend R 0 (by omega)

/-- Witness for `retry_exhaustion_5xx`: two retries, a constant 503 response
with body "boom", three attempts in total. -/
theorem retry_exhaustion_5xx_witness :
    isServerErrorStatus 503 = true ∧
    executeLoop (fun _ => .error "parse") 0 2 (fun _ => .resp ⟨503, none, "boom"⟩) 0 =
      ⟨.error (.http 503 "boom" none), 3⟩ :=
  ⟨by decide,
   retry_exhaustion_5xx (fun _ => .error "parse") 0 2 (fun _ => .resp ⟨503, none, "boom"⟩)
     ⟨503, none, "boom"⟩ (by decide) (fun _ => rfl)⟩

/-- One-step success: a 2xx response at the current attempt ends the loop
with the body and a single attempt. -/
theorem executeLoop_success (decode : String → Except String Json) (baseDelay maxRetries : Nat)
    (send : Nat → SendResult) (attempt : Nat) (r : HttpResponse)
    (hsend : send attempt = .resp r) (hs : isSuccessStatus r.status = true) :
    executeLoop decode baseDelay maxRetries send attempt = ⟨.ok r.body, 1⟩ := by
  rw [executeLoop_resp decode baseDelay maxRetries send attempt r hsend, if_pos hs]

/-- A server that always answers 200 with body "netbody". -/
def sendOk200 : Nat → SendResult := fun _ => .resp ⟨200, none, "netbody"⟩

/-- C7 counterexample: with offline mode enabled, a non-GET (e.g. POST)
request whose cache is never consulted still reaches the network — here one
HTTP attempt is performed and the response is returned, refuting "the client
never attempts network I/O for any request" while offline. -/
theorem offline_non_get_counterexample :
    (executeModel false true none (fun _ => .error "e") 0 0 sendOk200 "/tasks").attempts = 1 ∧
    (executeModel false true none (fun _ => .error "e") 0 0 sendOk200 "/tasks").result =
      .ok "netbody" := by
  have h := executeLoop_success (fun _ => .error "e") 0 0 sendOk200 0 ⟨200, none, "netbody"⟩
    rfl (by decide)
  have hm : executeModel false true none (fun _ => .error "e") 0 0 sendOk200 "/tasks" =
      executeLoop (fun _ => .error "e") 0 0 sendOk200 0 := rfl
  rw [hm, h]
  exact ⟨rfl, rfl⟩

/-- C7 (amended): while offline, a GET whose cache lookup misses fails
immediately with an `Offline` error naming the resource and performs zero
HTTP attempts; a GET whose cache lookup hits returns the cached bytes with
zero attempts (offline or not); but a non-GET request is not gated by the
offline flag at all — it always enters the retry loop. -/
theorem offline_mode_gate (decode : String → Except String Json)
    (baseDelay maxRetries : Nat) (send : Nat → SendResult) (path : String)
    (off : Bool) (bytes : String) (cacheHit : Option String) :
    executeModel true true none decode baseDelay maxRetries send path =
      ⟨.error (.offline path), 0⟩ ∧
    executeModel true off (some bytes) decode baseDelay maxRetries send path =
      ⟨.ok bytes, 0⟩ ∧
    executeModel false off cacheHit decode baseDelay maxRetries send path =
      executeLoop decode baseDelay maxRetries send 0 :=
  ⟨rfl, rfl, rfl⟩

/-- C8 counterexample: a client whose offline flag is `false` is cloned;
`set_offline true` on the original is not seen by the clone — the clone's
`is_offline` still returns `false`, while the original reads `true`.
The flag is therefore not shared between handles. -/
theorem offline_clone_counterexample :
    is_offline (set_offline (cloneClient ⟨[false]⟩ ⟨0⟩).1 ⟨0⟩ true)
        (cloneClient ⟨[false]⟩ ⟨0⟩).2 = false ∧
    is_offline (set_offline (cloneClient ⟨[false]⟩ ⟨0⟩).1 ⟨0⟩ true) ⟨0⟩ = true :=
  ⟨rfl, rfl⟩

/-- C8 (amended): cloning copies the current value of the offline flag into
a fresh atomic owned by the clone; afterwards the two handles are
independent: each reads the value seeded at clone time, `set_offline` on one
handle never changes what the other reads, and a handle always reads back
its own last store. -/
theorem offline_clone_independent (s : AtomStore) (c : ClientOffline) (b : Bool)
    (hwf : c.wf s) :
    is_offline (cloneClient s c).1 (cloneClient s c).2 = is_offline s c ∧
    is_offline (cloneClient s c).1 c = is_offline s c ∧
    is_offline (set_offline (cloneClient s c).1 c b) (cloneClient s c).2 = is_offline s c ∧
    is_offline (set_offline (cloneClient s c).1 (cloneClient s c).2 b) c = is_offline s c ∧
    is_offline (set_offline (cloneClient s c).1 c b) c = b := by
  unfold ClientOffline.wf at hwf
  unfold cloneClient newAtom set_offline storeAtom is_offline loadAtom
  dsimp only
  have hne : c.offlineRef ≠ s.cells.length := Nat.ne_of_lt hwf
  refine ⟨?_, ?_, ?_, ?_, ?_⟩
  · simp [List.getD]
  · simp [List.getD, List.getElem?_append_left hwf]
  · simp [List.getD, List.getElem?_set_ne hne]
  · simp [List.getD, List.getElem?_set_ne (Ne.symm hne), List.getElem?_append_left hwf]
  · simp only [List.getD, List.get?_eq_getElem?]
    rw [List.getElem?_set_eq_of_lt]
    · rfl
    · simp
      omega

/-- Witness for `offline_clone_independent`: a store with one cell holding
`false` and a handle referring to it. -/
theorem offline_clone_independent_witness :
    ClientOffline.wf ⟨[false]⟩ ⟨0⟩ ∧
    is_offline (cloneClient ⟨[false]⟩ ⟨0⟩).1 (cloneClient ⟨[false]⟩ ⟨0⟩).2 =
      is_offline ⟨[false]⟩ ⟨0⟩ ∧
    is_offline (set_offline (cloneClient ⟨[false]⟩ ⟨0⟩).1 ⟨0⟩ true) ⟨0⟩ = true :=
  have hwf : ClientOffline.wf ⟨[false]⟩ (⟨0⟩ : ClientOffline) := Nat.zero_lt_one
  ⟨hwf, (offline_clone_independent ⟨[false]⟩ ⟨0⟩ true hwf).1,
    (offline_clone_independent ⟨[false]⟩ ⟨0⟩ true hwf).2.2.2.2⟩

/-- A prefix occurrence is no longer than its host. -/
theorem leadsWith_length {needle hay : List Char} (h : leadsWith needle hay = true) :
    needle.length ≤ hay.length := by
  induction needle generalizing hay with
  | nil => simp
  | cons a as ih =>
    cases hay with
    | nil => simp [leadsWith] at h
    | cons b bs =>
      simp only [leadsWith, Bool.and_eq_true] at h
      simpa using ih h.2

/-- A substring occurrence is no longer than its host. -/
theorem hasSub_length {needle hay : List Char} (h : hasSub needle hay = true) :
    needle.length ≤ hay.length := by
  induction hay with
  | nil =>
    simp only [hasSub, List.isEmpty_iff] at h
    simp [h]
  | cons c rest ih =>
    simp only [hasSub, Bool.or_eq_true] at h
    rcases h with h | h
    · exact leadsWith_length h
    · exact le_trans (ih h) (by simp)

/-- C9: the Display and Debug renderings of an `AuthToken` are constants —
for any two secrets the outputs coincide, the Display output is exactly the
fixed marker `<redacted token>` — so neither rendering can contain a secret
longer than the marker; `expose` returns exactly the raw secret. -/
theorem auth_token_redaction (s s1 s2 : String) (hlen : 37 < s.length) :
    AuthToken.display (AuthToken.new s1) = AuthToken.display (AuthToken.new s2) ∧
    AuthToken.debugRender (AuthToken.new s1) = AuthToken.debugRender (AuthToken.new s2) ∧
    AuthToken.display (AuthToken.new s) = "<redacted token>" ∧
    AuthToken.expose (AuthToken.new s1) = s1 ∧
    strContains (AuthToken.display (AuthToken.new s)) s = false ∧
    strContains (AuthToken.debugRender (AuthToken.new s)) s = false := by
  refine ⟨rfl, rfl, rfl, rfl, ?_, ?_⟩
  · by_contra hc
    have ht : strContains (AuthToken.display (AuthToken.new s)) s = true := by
      revert hc
      cases strContains (AuthToken.display (AuthToken.new s)) s <;> simp
    have := hasSub_length ht
    have hs : s.toList.length = s.length := rfl
    have hm : (AuthToken.display (AuthToken.new s)).toList.length = 16 := rfl
    omega
  · by_contra hc
    have ht : strContains (AuthToken.debugRender (AuthToken.new s)) s = true := by
      revert hc
      cases strContains (AuthToken.debugRender (AuthToken.new s)) s <;> simp
    have := hasSub_length ht
    have hs : s.toList.length = s.length := rfl
    have hm : (AuthToken.debugRender (AuthToken.new s)).toList.length = 37 := rfl
    omega

/-- Witness for `auth_token_redaction`: a 40-character secret. -/
theorem auth_token_redaction_witness :
    37 < ("aaaaaaaaaaaaaaaaaaaaaaaaaaaaaaaaaaaaaaaa" : String).length ∧
    AuthToken.expose (AuthToken.new "tok1") = "tok1" ∧
    strContains (AuthToken.display (AuthToken.new "aaaaaaaaaaaaaaaaaaaaaaaaaaaaaaaaaaaaaaaa"))
      "aaaaaaaaaaaaaaaaaaaaaaaaaaaaaaaaaaaaaaaa" = false :=
  ⟨by decide,
   (auth_token_redaction "aaaaaaaaaaaaaaaaaaaaaaaaaaaaaaaaaaaaaaaa" "tok1" "x" (by decide)).2.2.2.1,
   (auth_token_redaction "aaaaaaaaaaaaaaaaaaaaaaaaaaaaaaaaaaaaaaaa" "tok1" "x" (by decide)).2.2.2.2.1⟩

/-- C10: `post_void` and `delete` discard the response body — whenever the
first attempt yields any 2xx response (empty body, non-JSON body, anything),
they return `Ok(())`; the parse gate (which rejects an empty body) is never
applied. -/
theorem post_void_delete_discard_body (off : Bool) (bj : Json)
    (decode : String → Except String Json) (baseDelay R : Nat)
    (send : Nat → SendResult) (path : String) (r : HttpResponse)
    (hsend : send 0 = .resp r) (hs : isSuccessStatus r.status = true) :
    post_void off (.ok bj) decode baseDelay R send path = .ok () ∧
    delete off decode baseDelay R send path = .ok () ∧
    parse_response decode path "" = .error (.other ("empty response body for " ++ path)) := by
  have hloop := executeLoop_success decode baseDelay R send 0 r hsend hs
  refine ⟨?_, ?_, rfl⟩
  · simp [post_void, executeModel, hloop]
  · simp [delete, executeModel, hloop]

/-- Witness for `post_void_delete_discard_body`: a 204-style empty-body
success response; both operations return `Ok(())` even though the parse
gate would reject the empty body. -/
theorem post_void_delete_discard_body_witness :
    sendOk200 0 = .resp ⟨200, none, "netbody"⟩ ∧
    isSuccessStatus 200 = true ∧
    post_void false (.ok .null) (fun _ => .error "x") 0 3 sendOk200 "/p" = .ok () :=
  ⟨rfl, by decide,
   (post_void_delete_discard_body false .null (fun _ => .error "x") 0 3 sendOk200 "/p"
     ⟨200, none, "netbody"⟩ rfl (by decide)).1⟩

/-- C5: on the JSON-returning parse path, an empty body is always the
"empty response body" error; a non-empty body that fails to parse is a
deserialize error; a parsed JSON object passes iff it has a `data` or an
`errors` key (in particular `{"data": null}` passes and `{"foo": "bar"}`
fails with the schema-violation error), and every non-object JSON value
skips the structural check. -/
theorem parse_and_validate_spec (decode : String → Except String Json)
    (path bytes e : String) (v : Json) (fields : List (String × Json))
    (xs : List Json) (sc : String) (n : Int) (bb : Bool) :
    parse_response decode path "" = .error (.other ("empty response body for " ++ path)) ∧
    (bytes ≠ "" → decode bytes = .error e →
      parse_response decode path bytes = .error (.deserialize e)) ∧
    (bytes ≠ "" → decode bytes = .ok v → validate_response_schema v = .ok () →
      parse_response decode path bytes = .ok v) ∧
    (bytes ≠ "" → decode bytes = .ok v →
      validate_response_schema v =
        .error (.other "response missing required `data` or `errors` field") →
      parse_response decode path bytes =
        .error (.other "response missing required `data` or `errors` field")) ∧
    ((validate_response_schema (.obj fields) = .ok ()) ↔
      (jsonHasKey fields "data" || jsonHasKey fields "errors") = true) ∧
    validate_response_schema (.obj [("data", .null)]) = .ok () ∧
    validate_response_schema (.obj [("foo", .str "bar")]) =
      .error (.other "response missing required `data` or `errors` field") ∧
    validate_response_schema (.arr xs) = .ok () ∧
    validate_response_schema (.str sc) = .ok () ∧
    validate_response_schema (.num n) = .ok () ∧
    validate_response_schema (.bool bb) = .ok () ∧
    validate_response_schema .null = .ok () := by
  refine ⟨rfl, ?_, ?_, ?_, ?_, rfl, rfl, rfl, rfl, rfl, rfl, rfl⟩
  · intro h1 h2
    simp [parse_response, h1, h2]
  · intro h1 h2 h3
    simp [parse_response, h1, h2, h3]
  · intro h1 h2 h3
    simp [parse_response, h1, h2, h3]
  · constructor
    · intro hok
      by_cases hkey : (jsonHasKey fields "data" || jsonHasKey fields "errors") = true
      · exact hkey
      · simp [validate_response_schema, hkey] at hok
    · intro hkey
      simp [validate_response_schema, hkey]

/-- Witness for `parse_and_validate_spec`: a one-byte body whose parse
fails yields the deserialize error. -/
theorem parse_and_validate_spec_witness :
    ("x" : String) ≠ "" ∧
    parse_response (fun _ => .error "bad") "/p" "x" = .error (.deserialize "bad") :=
  ⟨by decide,
   (parse_and_validate_spec (fun _ => .error "bad") "/p" "x" "bad" .null [] [] "" 0 false).2.1
     (by decide) rfl⟩

/-- The details payload of the spec's offset-expiry example: a structured
`errors` list whose message names an invalid/expired offset. -/
def offsetExpiredDetails : Json :=
  .obj [("errors", .arr [.obj [("message", .str "offset is invalid or expired")]])]

/-- A 400 error carrying the offset-expiry details. -/
def err400expired : ApiErr := .http 400 "bad request" (some offsetExpiredDetails)

/-- A 400 error with no offset-related message. -/
def err400plain : ApiErr := .http 400 "bad request" none

/-- C4: when a page fetch fails, the stream ends cleanly (no error item) iff
the failure is an HTTP 400 matched by `is_offset_expired`; any other failure
is yielded as an error item and the stream ends. Concretely, after a first
page with a next-offset token, a 400 with message "offset is invalid or
expired" in the structured error list ends the stream with just page 1,
while a plain 400 yields page 1 and then the error. -/
theorem paginate_offset_expiry (T : Type) (max_items : Option Nat) (emitted : Nat)
    (e : ApiErr) (rest : List (Except ApiErr (ListResponse T)))
    (hstop : stopBeforeFetch max_items emitted = false) :
    (offsetExpired400 e = true →
      paginate_with_limit max_items emitted (.error e :: rest) = ([], 1)) ∧
    (offsetExpired400 e = false →
      paginate_with_limit max_items emitted (.error e :: rest) = ([.err e], 1)) ∧
    offsetExpired400 err400expired = true ∧
    offsetExpired400 err400plain = false ∧
    paginate_with_limit none 0
      [Except.ok (⟨[1], some ⟨some "abc", none, none⟩⟩ : ListResponse Nat),
       Except.error err400expired] = ([.page [1]], 2) ∧
    paginate_with_limit none 0
      [Except.ok (⟨[1], some ⟨some "abc", none, none⟩⟩ : ListResponse Nat),
       Except.error err400plain] = ([.page [1], .err err400plain], 2) := by
  refine ⟨?_, ?_, rfl, rfl, rfl, rfl⟩
  · intro h
    simp [paginate_with_limit, hstop, h]
  · intro h
    simp [paginate_with_limit, hstop, h]

/-- Witness for `paginate_offset_expiry`: with no maximum configured, an
offset-expired 400 as the very first fetch ends the stream cleanly with no
items and one GET. -/
theorem paginate_offset_expiry_witness :
    stopBeforeFetch none 0 = false ∧
    offsetExpired400 err400expired = true ∧
    paginate_with_limit none 0 [(Except.error err400expired :
      Except ApiErr (ListResponse Nat))] = ([], 1) :=
  ⟨rfl, rfl,
   (paginate_offset_expiry Nat none 0 err400expired [] rfl).1 rfl⟩

/-- Total number of items in the pages yielded by a pagination stream. -/
def pagesTotal {T : Type} : List (StreamItem T) → Nat
  | [] => 0
  | .page items :: rest => items.length + pagesTotal rest
  | .err _ :: rest => pagesTotal rest

/-- With `emitted` already at or past the configured maximum, the loop
terminates before issuing any GET. -/
theorem paginate_stop (T : Type) (m emitted : Nat)
    (rs : List (Except ApiErr (ListResponse T))) (h : m ≤ emitted) :
    paginate_with_limit (some m) emitted rs = ([], 0) := by
  cases rs with
  | nil => rfl
  | cons f rest => simp [paginate_with_limit, stopBeforeFetch, h]

/-- One successful step of the pagination loop, unfolded. -/
theorem paginate_ok_step (T : Type) (max_items : Option Nat) (emitted : Nat)
    (resp : ListResponse T) (rest : List (Except ApiErr (ListResponse T)))
    (hstop : stopBeforeFetch max_items emitted = false) :
    paginate_with_limit max_items emitted (.ok resp :: rest) =
      (let items : List T :=
        match max_items with
        | some m =>
          if m < emitted + resp.data.length then resp.data.take (m - emitted)
          else resp.data
        | none => resp.data
       let continue_after_page := (resp.next_page.bind (·.offset)).isSome &&
         (match max_items with
          | none => true
          | some m => decide (emitted + items.length < m))
       if continue_after_page then
         (.page items :: (paginate_with_limit max_items (emitted + items.length) rest).1,
          (paginate_with_limit max_items (emitted + items.length) rest).2 + 1)
       else ([.page items], 1)) := by
  cases max_items with
  | none => simp [paginate_with_limit, hstop]
  | some m => simp [paginate_with_limit, hstop]

/-- Truncation in one step never lets the cumulative count pass the
configured maximum. -/
theorem paginate_emitted_bound (T : Type) (m : Nat)
    (rs : List (Except ApiErr (ListResponse T))) :
    ∀ emitted, emitted ≤ m →
      emitted + pagesTotal (paginate_with_limit (some m) emitted rs).1 ≤ m := by
  induction rs with
  | nil =>
    intro emitted h
    simpa [paginate_with_limit, pagesTotal] using h
  | cons f rest ih =>
    intro emitted h
    by_cases hstop : m ≤ emitted
    · rw [paginate_stop T m emitted (f :: rest) hstop]
      simpa [pagesTotal] using h
    · have hsf : stopBeforeFetch (some m) emitted = false := by
        simp [stopBeforeFetch]
        omega
      cases f with
      | error e =>
        by_cases hex : offsetExpired400 e = true
        · simp [paginate_with_limit, hsf, hex, pagesTotal]
          omega
        · simp [paginate_with_limit, hsf, hex, pagesTotal]
          omega
      | ok resp =>
        rw [paginate_ok_step T (some m) emitted resp rest hsf]
        dsimp only
        set L : List T := (if m < emitted + resp.data.length then resp.data.take (m - emitted)
          else resp.data) with hLdef
        have hlen : emitted + L.length ≤ m := by
          by_cases hov : m < emitted + resp.data.length
          · rw [hLdef, if_pos hov]
            simp [List.length_take]
            omega
          · rw [hLdef, if_neg hov]
            omega
        by_cases hcont : ((resp.next_page.bind (·.offset)).isSome &&
            decide (emitted + L.length < m)) = true
        · rw [if_pos hcont]
          have := ih (emitted + L.length) hlen
          simp [pagesTotal]
          omega
        · rw [if_neg hcont]
          simpa [pagesTotal] using hlen

/-- C3: the pagination stream (i) issues no GET when the cumulative count
already reached the maximum, (ii) never lets the cumulative item count pass
the maximum, (iii) stops after a page whose untruncated response carried no
next-page offset token, and (iv) on the spec's scenario `max_items = 3`,
server pages of sizes [2, 2] both carrying tokens, yields a 2-item page then
a truncated 1-item page (cumulative exactly 3) in exactly 2 GETs. -/
theorem paginate_max_items_spec (T : Type) (m emitted : Nat)
    (rs rest : List (Except ApiErr (ListResponse T))) (resp : ListResponse T)
    (max_items : Option Nat) :
    (m ≤ emitted → paginate_with_limit (some m) emitted rs = ([], 0)) ∧
    (emitted ≤ m → emitted + pagesTotal (paginate_with_limit (some m) emitted rs).1 ≤ m) ∧
    (stopBeforeFetch max_items emitted = false → resp.next_page = none →
      (paginate_with_limit max_items emitted (.ok resp :: rest)).2 = 1) ∧
    paginate_with_limit (some 3) 0
      [Except.ok (⟨[1, 2], some ⟨some "o1", none, none⟩⟩ : ListResponse Nat),
       Except.ok (⟨[3, 4], some ⟨some "o2", none, none⟩⟩ : ListResponse Nat)] =
      ([.page [1, 2], .page [3]], 2) := by
  refine ⟨paginate_stop T m emitted rs, paginate_emitted_bound T m rs emitted, ?_, rfl⟩
  intro hstop hnp
  rw [paginate_ok_step T max_items emitted resp rest hstop]
  simp [hnp]

/-- Witness for `paginate_max_items_spec`: at `max_items = 3` with the
cumulative count already at 3, no GET is issued; and a token-free response
ends the stream after one GET. -/
theorem paginate_max_items_spec_witness :
    (3 : Nat) ≤ 3 ∧
    paginate_with_limit (some 3) 3
      [(Except.ok (⟨[7], none⟩ : ListResponse Nat))] = ([], 0) ∧
    (paginate_with_limit (none : Option Nat) 0
      [(Except.ok (⟨[7], none⟩ : ListResponse Nat))]).2 = 1 :=
  ⟨le_refl 3,
   (paginate_max_items_spec Nat 3 3 [(Except.ok (⟨[7], none⟩ : ListResponse Nat))]
     [] ⟨[7], none⟩ none).1 (le_refl 3),
   (paginate_max_items_spec Nat 3 3 [(Except.ok (⟨[7], none⟩ : ListResponse Nat))]
     [] ⟨[7], none⟩ none).2.2.1 rfl rfl⟩

instance : IsTotal (String × String) pairLe :=
  ⟨fun a b => by
    unfold pairLe
    rcases lt_trichotomy a.1 b.1 with h | h | h
    · exact Or.inl (Or.inl h)
    · rcases le_total a.2 b.2 with h2 | h2
      · exact Or.inl (Or.inr ⟨h, h2⟩)
      · exact Or.inr (Or.inr ⟨h.symm, h2⟩)
    · exact Or.inr (Or.inl h)⟩

instance : IsTrans (String × String) pairLe :=
  ⟨fun a b c hab hbc => by
    unfold pairLe at *
    rcases hab with h1 | ⟨e1, l1⟩
    · rcases hbc with h2 | ⟨e2, l2⟩
      · exact Or.inl (lt_trans h1 h2)
      · exact Or.inl (e2 ▸ h1)
    · rcases hbc with h2 | ⟨e2, l2⟩
      · exact Or.inl (e1 ▸ h2)
      · exact Or.inr ⟨e1.trans e2, le_trans l1 l2⟩⟩

instance : IsAntisymm (String × String) pairLe :=
  ⟨fun a b hab hba => by
    unfold pairLe at *
    rcases hab with h1 | ⟨e1, l1⟩
    · rcases hba with h2 | ⟨e2, l2⟩
      · exact absurd (lt_trans h1 h2) (lt_irrefl _)
      · exact absurd h1 (by rw [e2]; exact lt_irrefl _)
    · rcases hba with h2 | ⟨e2, l2⟩
      · exact absurd h2 (by rw [e1]; exact lt_irrefl _)
      · exact Prod.ext e1 (le_antisymm l1 l2)⟩

/-- Sorting by the canonical pair order is invariant under permutation of
the input: any two permutations of the same query-pair multiset sort to the
same list. -/
theorem sortPairs_perm_eq {l1 l2 : List (String × String)} (h : l1.Perm l2) :
    sortPairs l1 = sortPairs l2 :=
  List.eq_of_perm_of_sorted
    ((List.perm_insertionSort pairLe l1).trans (h.trans (List.perm_insertionSort pairLe l2).symm))
    (List.sorted_insertionSort pairLe l1)
    (List.sorted_insertionSort pairLe l2)

/-- C6: the cache key is the digest of method, path and the lexicographically
sorted query pairs; hence for every digest function, method and path, any two
permutations of the same query-parameter multiset derive the identical key. -/
theorem build_cache_key_perm (hash : String → String) (method path : String)
    (p1 p2 : List (String × String)) (hperm : p1.Perm p2) :
    build_cache_key hash method path p1 = build_cache_key hash method path p2 := by
  unfold build_cache_key
  rw [sortPairs_perm_eq hperm]

/-- Witness for `build_cache_key_perm`: swapping two query parameters leaves
the derived key unchanged. -/
theorem build_cache_key_perm_witness :
    ([("b", "2"), ("a", "1")] : List (String × String)).Perm [("a", "1"), ("b", "2")] ∧
    build_cache_key (fun s => s) "GET" "/tasks" [("b", "2"), ("a", "1")] =
      build_cache_key (fun s => s) "GET" "/tasks" [("a", "1"), ("b", "2")] :=
  ⟨List.Perm.swap _ _ _,
   build_cache_key_perm (fun s => s) "GET" "/tasks" _ _ (List.Perm.swap _ _ _)⟩

end AsanaCli
